import Mathlib

/-!
Shallow embedding of the TikTok ads creative demo (TypeScript sources under
`src/`): the OAuth credential lifecycle (`src/services/oauth.ts`), the remote
gateway (`src/services/tiktokApi.ts`), the error classifier
(`src/utils/errorMessages.ts`) and the form validation engine
(`src/services/validation.ts`).

Conventions of the embedding:
- JavaScript runtime faults (thrown `TypeError`s, `new Error(...)`) are
  modelled with `Except JsError`.
- Ambient effects are made explicit: `Date.now()` becomes a `now : Int`
  parameter, `sessionStorage`/`localStorage` slots become explicit values
  threaded through the functions, and the network (`fetch`) becomes a
  parameter describing the outcome of the request.
- JS machine numbers in these code paths are integral epoch-milliseconds and
  byte counts well below 2^53, where double arithmetic is exact, so they are
  modelled as `Int`.
-/

namespace TikTokAds

/-- JS string truthiness/`||`: `a || b` on strings picks `b` exactly when
`a` is the empty string. -/
def jsOrS (a b : String) : String := if a = "" then b else a

/-- `a?.x || b` where the optional chain may yield `undefined`:
`undefined` and `""` are both falsy. -/
def jsOrOpt (a : Option String) (b : String) : String :=
  match a with
  | some s => jsOrS s b
  | none => b

/-- JS `String.prototype.includes` restricted to the non-empty search
strings used by the source. -/
def jsIncludes (s sub : String) : Bool := decide (List.IsInfix sub.data s.data)

/-- A thrown JavaScript value, as far as the embedded code distinguishes
them. -/
inductive JsError
  | error (message : String)
  | typeError (message : String)
  deriving DecidableEq, Repr

/-! ## Data model: credentials (src/types/tiktok.ts `OAuthTokens`) -/

/-- `OAuthTokens` from `src/types/tiktok.ts`: the persisted credential. -/
structure OAuthTokens where
  accessToken : String
  refreshToken : Option String
  expires_in : Int
  timestamp : Int
  advertiser_id : Option String
  deriving DecidableEq, Repr

/-- The token payload returned by the code-for-token exchange, before
`handleOAuthCallback` stamps `timestamp: Date.now()` onto it. -/
structure TokensPayload where
  accessToken : String
  refreshToken : Option String
  expires_in : Int
  advertiser_id : Option String
  deriving DecidableEq, Repr

/-- `{...tokens, timestamp: Date.now()}` in `handleOAuthCallback`. -/
def stampTokens (p : TokensPayload) (now : Int) : OAuthTokens :=
  { accessToken := p.accessToken
    refreshToken := p.refreshToken
    expires_in := p.expires_in
    timestamp := now
    advertiser_id := p.advertiser_id }

/-! ## Credential lifecycle (src/services/oauth.ts) -/

/-- The 5-minute expiry buffer of `isTokenValid`. -/
def bufferTime : Int := 5 * 60 * 1000

/-- `isTokenValid` (src/services/oauth.ts lines 99-108): null tokens are
invalid; otherwise valid iff `now < timestamp + expires_in*1000 - buffer`. -/
def isTokenValid (tokens : Option OAuthTokens) (now : Int) : Bool :=
  match tokens with
  | none => false
  | some t => decide (now < t.timestamp + t.expires_in * 1000 - bufferTime)

/-- The durable `localStorage` slot `"tiktok_tokens"`. The only values the
program distinguishes when reading it back are: the `JSON.stringify` image of
some `OAuthTokens` record (`JSON.parse` recovers the record, since stringify
of this flat record of strings/numbers is injective and parse is its left
inverse), and a string that `JSON.parse` rejects (`notJson`). -/
inductive StoredCell
  | tokensJson (t : OAuthTokens)
  | notJson
  deriving DecidableEq, Repr

/-- `storeTokens` (src/services/oauth.ts lines 136-142): overwrites the slot
with the serialized credential. (The try/catch only guards storage-quota
faults, which the slot model does not exhibit.) -/
def storeTokens (t : OAuthTokens) (_slot : Option StoredCell) : Option StoredCell :=
  some (.tokensJson t)

/-- `clearTokens` (src/services/oauth.ts lines 147-149). -/
def clearTokens (_slot : Option StoredCell) : Option StoredCell := none

/-- `getStoredTokens` (src/services/oauth.ts lines 113-131). Returns the
read credential (or null) together with the slot after the call:
- empty slot: returns null;
- slot holding a non-JSON string: `JSON.parse` throws, the catch returns
  null, the slot is left as it was;
- slot holding a serialized credential: if `isTokenValid` fails the slot is
  cleared and null returned, otherwise the credential is returned. -/
def getStoredTokens (slot : Option StoredCell) (now : Int) :
    Option OAuthTokens × Option StoredCell :=
  match slot with
  | none => (none, none)
  | some .notJson => (none, some .notJson)
  | some (.tokensJson t) =>
      if isTokenValid (some t) now then (some t, some (.tokensJson t))
      else (none, none)

/-- JS `state !== savedState` where `savedState` is
`sessionStorage.getItem("oauth_state")` (a string or `null`): a string is
never strictly equal to `null`. This is the negation of that test. -/
def jsStrEqOpt (s : String) (o : Option String) : Bool :=
  match o with
  | some v => s == v
  | none => false

/-- The message of the error thrown on a state mismatch. -/
def invalidStateMsg : String := "Invalid state parameter. Possible CSRF attack."

/-- Everything observable about one `handleOAuthCallback` call: its
result, the `sessionStorage` `"oauth_state"` slot after the call, the
`localStorage` `"tiktok_tokens"` slot after the call, and whether
`exchangeCodeForTokens` was invoked. -/
structure CallbackResult where
  result : Except JsError OAuthTokens
  oauthState : Option String
  tokenSlot : Option StoredCell
  exchangeAttempted : Bool
  deriving Repr

/-- `handleOAuthCallback` (src/services/oauth.ts lines 30-59). The network
exchange is a parameter `exchange : String → Except JsError TokensPayload`
(the outcome of `exchangeCodeForTokens` for a given code). Control flow of
the source: read `oauth_state`; if `state !== savedState` throw immediately
(before the `removeItem` line, so the slot is left untouched and no exchange
happens); otherwise remove the stored state, exchange the code, stamp
`timestamp := now`, store, and return the stamped tokens. The catch block
only logs and rethrows, so it is observationally the identity. -/
def handleOAuthCallback (code state : String) (savedState : Option String)
    (exchange : String → Except JsError TokensPayload) (now : Int)
    (tokenSlot : Option StoredCell) : CallbackResult :=
  if jsStrEqOpt state savedState then
    match exchange code with
    | .error e =>
        { result := .error e
          oauthState := none
          tokenSlot := tokenSlot
          exchangeAttempted := true }
    | .ok p =>
        let t := stampTokens p now
        { result := .ok t
          oauthState := none
          tokenSlot := storeTokens t tokenSlot
          exchangeAttempted := true }
  else
    { result := .error (.error invalidStateMsg)
      oauthState := savedState
      tokenSlot := tokenSlot
      exchangeAttempted := false }

/-! ## Error classifier (src/utils/errorMessages.ts) -/

/-- Error buckets of `ErrorType` in src/types/tiktok.ts. -/
inductive ErrorType
  | NETWORK_ERROR
  | OAUTH_INVALID_CREDENTIALS
  | OAUTH_EXPIRED_TOKEN
  | OAUTH_MISSING_PERMISSIONS
  | OAUTH_GEO_RESTRICTION
  | RATE_LIMIT
  | MUSIC_INVALID_ID
  | MUSIC_NOT_AVAILABLE
  | UNKNOWN_ERROR
  deriving DecidableEq, Repr

/-- `UserFriendlyError` in src/types/tiktok.ts. -/
structure UserFriendlyError where
  type : ErrorType
  title : String
  message : String
  action : String
  canRetry : Bool
  deriving DecidableEq, Repr

/-- A JS property value that may fail to be a string (the `message` and
`code` fields of a raw error object are untyped at runtime). -/
inductive JsPrim
  | str (s : String)
  | num (n : Int)
  deriving DecidableEq, Repr

/-- JS strict equality of a property value against a string constant:
a number is never `===` a string. -/
def jsPrimEqStr (p : JsPrim) (c : String) : Bool :=
  match p with
  | .str s => s == c
  | .num _ => false

/-- The optional `data` payload of an `ApiError`
(`{ error_code?, description? }`). -/
structure ApiData where
  error_code : Option String
  description : Option String
  deriving DecidableEq, Repr

/-- The raw values `mapApiErrorToUserError` can receive (its parameter type
is `unknown`), partitioned by the shape tests the function performs:
`instanceof TypeError`, other `Error` instances (which carry a `message`
property but no `code`), plain objects carrying both `code` and `message`
properties (of any runtime type), objects missing one of them, and
non-objects (null, numbers, strings, undefined). -/
inductive RawError
  | typeErrorInst (message : String)
  | errorInst (message : String)
  | codeMessageObj (code : JsPrim) (message : JsPrim) (data : Option ApiData)
  | objNoCodeMessage
  | nonObject
  deriving DecidableEq, Repr

/-- The descriptor of the network-error branch. -/
def networkDescriptor : UserFriendlyError :=
  { type := .NETWORK_ERROR
    title := "Connection Error"
    message := "Unable to connect to TikTok servers. Please check your internet connection and try again."
    action := "Retry"
    canRetry := true }

/-- The descriptor of the final default branch. -/
def defaultUnknownDescriptor : UserFriendlyError :=
  { type := .UNKNOWN_ERROR
    title := "Unexpected Error"
    message := "An unexpected error occurred. Please try again or contact support if the issue persists."
    action := "Retry"
    canRetry := true }

/-- `mapApiErrorToUserError` (src/utils/errorMessages.ts lines 8-148).
Shape tests of the source: branch 1 fires on `error instanceof TypeError &&
error.message.includes("fetch")`; `isApiError` then accepts any non-null
object with `code` and `message` properties. Inside that branch the source
evaluates `error.message.toLowerCase()` before any dispatch, which throws a
`TypeError` when the `message` property is not a string. Dispatch order and
all descriptor texts follow the source. -/
def mapApiErrorToUserError (error : RawError) : Except JsError UserFriendlyError :=
  match error with
  | .typeErrorInst m =>
      if jsIncludes m "fetch" then .ok networkDescriptor
      else .ok defaultUnknownDescriptor
  | .errorInst _ => .ok defaultUnknownDescriptor
  | .objNoCodeMessage => .ok defaultUnknownDescriptor
  | .nonObject => .ok defaultUnknownDescriptor
  | .codeMessageObj code msg data =>
      let errorCode : Option String := data.bind (·.error_code)
      match msg with
      | .num _ => .error (.typeError "error.message.toLowerCase is not a function")
      | .str s =>
          let errorMessage := s.toLower
          if jsPrimEqStr code "invalid_client" || jsIncludes errorMessage "invalid client" then
            .ok { type := .OAUTH_INVALID_CREDENTIALS
                  title := "Invalid Credentials"
                  message := "Your TikTok App credentials are invalid. Please check your App ID and Secret in the .env file."
                  action := "Update credentials and reconnect"
                  canRetry := false }
          else if jsPrimEqStr code "invalid_grant" || errorCode == some "expired_token" then
            .ok { type := .OAUTH_EXPIRED_TOKEN
                  title := "Session Expired"
                  message := "Your TikTok session has expired. Please reconnect your account to continue."
                  action := "Reconnect Account"
                  canRetry := true }
          else if jsPrimEqStr code "unauthorized_client" || errorCode == some "insufficient_permissions" then
            .ok { type := .OAUTH_MISSING_PERMISSIONS
                  title := "Missing Permissions"
                  message := "Your app doesn\x27t have the required permissions. Please ensure \x22ad_management\x22 and \x22video_management\x22 scopes are enabled."
                  action := "Check app permissions in TikTok Developer Portal"
                  canRetry := false }
          else if errorCode == some "geo_restricted" || jsIncludes s "geo" then
            .ok { type := .OAUTH_GEO_RESTRICTION
                  title := "Region Restricted"
                  message := "TikTok Ads API is not available in your region. This service may be restricted to certain countries."
                  action := "Contact TikTok support for availability"
                  canRetry := false }
          else if errorCode == some "rate_limit_exceeded" || jsIncludes errorMessage "rate limit" then
            .ok { type := .RATE_LIMIT
                  title := "Too Many Requests"
                  message := "You\x27ve made too many requests. Please wait a moment before trying again."
                  action := "Wait 60 seconds and retry"
                  canRetry := true }
          else if errorCode == some "invalid_music_id" || jsIncludes errorMessage "music" then
            .ok { type := .MUSIC_INVALID_ID
                  title := "Invalid Music ID"
                  message := "The music ID you entered doesn\x27t exist in TikTok\x27s library. Please check the ID and try again."
                  action := "Verify music ID"
                  canRetry := true }
          else if errorCode == some "music_not_available" then
            .ok { type := .MUSIC_NOT_AVAILABLE
                  title := "Music Not Available"
                  message := "This music is not available for use in ads. Please select a different track."
                  action := "Choose different music"
                  canRetry := true }
          else
            .ok { type := .UNKNOWN_ERROR
                  title := "Something Went Wrong"
                  message := jsOrOpt (data.bind (·.description))
                    (jsOrS s "An unexpected error occurred. Please try again.")
                  action := "Retry"
                  canRetry := true }

/-! ## Remote gateway (src/services/tiktokApi.ts), real-mode path -/

/-- `ApiError` as thrown by the gateway (src/types/tiktok.ts): a plain
object with `code` and `message` strings (the optional `data` payload is
not examined by the code paths embedded here). -/
structure GatewayApiError where
  code : String
  message : String
  deriving DecidableEq, Repr

/-- A thrown value inside the gateway: either an `ApiError`-shaped object
(which `isApiError` recognizes) or anything else (which it does not). -/
inductive ThrownError
  | api (e : GatewayApiError)
  | other (message : String)
  deriving DecidableEq, Repr

/-- The `data.data` payload of a music-validation response. -/
structure MusicData where
  title : Option String
  artist : Option String
  deriving DecidableEq, Repr

/-- The outcome of the `fetch` performed by `apiRequest`: either the request
never reached a response (fetch threw a `TypeError`), or a JSON envelope
`{code, message, data}` came back. -/
inductive FetchOutcome
  | transportFail
  | response (code : Int) (message : String) (data : MusicData)
  deriving DecidableEq, Repr

/-- `apiRequest` (src/services/tiktokApi.ts lines 18-68). A response with
envelope `code !== 0` raises an `ApiError` (re-thrown as-is by the catch
block since `isApiError` holds of it); a transport failure is a `TypeError`,
which the catch block wraps into the `network_error` `ApiError` and throws.
`data.code?.toString()` on an always-present integer code is its decimal
rendering (never falsy, `"0"` included), and `data.message || "API request
failed"` is JS string-or. -/
def apiRequest (out : FetchOutcome) : Except ThrownError MusicData :=
  match out with
  | .transportFail =>
      .error (.api { code := "network_error"
                     message := "Network request failed. Please check your connection." })
  | .response c m d =>
      if c ≠ 0 then
        .error (.api { code := toString c, message := jsOrS m "API request failed" })
      else
        .ok d

/-- `MusicValidationResponse` (src/types/tiktok.ts). -/
structure MusicValidationResponse where
  valid : Bool
  music_id : String
  title : Option String
  artist : Option String
  error : Option String
  deriving DecidableEq, Repr

/-- `validateMusicId` (src/services/tiktokApi.ts lines 73-110), real-mode
path (`API_MODE !== "mock"`). Success wraps the payload with `valid: true`;
a caught `ApiError`-shaped exception — which covers every protocol failure
and every transport failure, since `apiRequest` wraps the latter into an
`ApiError` — is returned as the value `{valid: false, error: message}`;
any other exception is re-thrown. The access token only feeds the request
header and does not influence the embedded control flow. -/
def validateMusicId (musicId _accessToken : String) (out : FetchOutcome) :
    Except ThrownError MusicValidationResponse :=
  match apiRequest out with
  | .ok d =>
      .ok { valid := true, music_id := musicId
            title := d.title, artist := d.artist, error := none }
  | .error (.api e) =>
      .ok { valid := false, music_id := musicId
            title := none, artist := none, error := some e.message }
  | .error (.other m) => .error (.other m)

/-! ## Form validation engine (src/services/validation.ts) -/

/-- `AdFormData` (src/types/tiktok.ts) at runtime: the select-backed fields
are strings (the empty string models the unset/falsy state the required
checks test for); `musicId` and `uploadedMusicFile` are optional. -/
structure FileRef where
  type : String
  size : Int
  deriving DecidableEq, Repr

/-- The ad-creation form as validated. -/
structure AdFormData where
  campaignName : String
  objective : String
  adText : String
  cta : String
  musicOption : String
  musicId : Option String
  uploadedMusicFile : Option FileRef
  deriving DecidableEq, Repr

/-- `FormErrors` (src/types/tiktok.ts): field name to message, absent =
no error. -/
structure FormErrors where
  campaignName : Option String := none
  objective : Option String := none
  adText : Option String := none
  cta : Option String := none
  musicOption : Option String := none
  musicId : Option String := none
  uploadedMusicFile : Option String := none
  deriving DecidableEq, Repr

/-- The `VALIDATION_RULES.musicId.pattern` regex `/^[0-9]{10,20}$/`. -/
def musicIdPattern (s : String) : Bool :=
  decide (10 ≤ s.length) && decide (s.length ≤ 20) && s.all Char.isDigit

/-- The `musicId` branch of `validateAdForm` (src/services/validation.ts
lines 53-59): when `musicOption === "existing"`, the source evaluates
`formData.musicId.trim()` — a `TypeError` when `musicId` is absent
(`undefined`), since the field is optional in `AdFormData`. -/
def musicIdCheck (f : AdFormData) : Except JsError (Option String) :=
  if f.musicOption = "existing" then
    match f.musicId with
    | none => .error (.typeError "Cannot read properties of undefined (reading trim)")
    | some mid =>
        if mid.trim = "" then .ok (some "Music ID is required")
        else if ¬ musicIdPattern mid then .ok (some "Music ID must be a 10-20 digit number")
        else .ok none
  else
    .ok none

/-- The `uploadedMusicFile` branch (src/services/validation.ts lines
62-84): later checks overwrite earlier ones for the same field (`tooLarge`
wins over `invalidType` when both fire). -/
def uploadedFileCheck (f : AdFormData) : Option String :=
  if f.musicOption = "upload" then
    match f.uploadedMusicFile with
    | none => some "Please upload a music file"
    | some file =>
        let e :=
          if ¬ (["audio/mpeg", "audio/wav", "audio/mp4", "audio/x-m4a"].contains file.type) then
            some "Please upload a valid audio file (MP3, WAV, or M4A)"
          else none
        if file.size > 10 * 1024 * 1024 then some "File size must not exceed 10MB" else e
  else
    none

/-- `validateAdForm` (src/services/validation.ts lines 9-87). Field rules in
source order; the cross-field rule (objective `CONVERSIONS` with music
option `none`) assigns `errors.musicOption` after the required check and so
overrides it. The only effectful step is the `musicId` branch, whose
`TypeError` aborts the whole call (the earlier plain assignments to the
local `errors` object are unobservable in that case), so it is sequenced
first here. Message texts are the `VALIDATION_ERRORS` constants. -/
def validateAdForm (f : AdFormData) : Except JsError FormErrors :=
  match musicIdCheck f with
  | .error e => .error e
  | .ok musicIdErr =>
      .ok
        { campaignName :=
            if f.campaignName.trim = "" then some "Campaign name is required"
            else if f.campaignName.length < 3 then some "Campaign name must be at least 3 characters"
            else if f.campaignName.length > 100 then some "Campaign name must not exceed 100 characters"
            else none
          objective := if f.objective = "" then some "Please select a campaign objective" else none
          adText :=
            if f.adText.trim = "" then some "Ad text is required"
            else if f.adText.length > 100 then some "Ad text must not exceed 100 characters"
            else none
          cta := if f.cta = "" then some "Please select a call-to-action" else none
          musicOption :=
            if f.objective = "CONVERSIONS" ∧ f.musicOption = "none" then
              some "Music is required for Conversions campaigns"
            else if f.musicOption = "" then some "Please select a music option"
            else none
          musicId := musicIdErr
          uploadedMusicFile := uploadedFileCheck f }

/-! ## Claims -/

/-- C1 counterexample: the state check is not one-shot. With `"s"` stored by
a single issue, a first verification call presenting the wrong candidate
fails but leaves the token stored, and a second call presenting the matching
candidate then succeeds — refuting the claim that the second call fails
whether its candidate is the same or different. -/
theorem c1_counterexample :
    (handleOAuthCallback "abc" "wrong" (some "s")
        (fun _ => .ok ⟨"tok", none, 7200, none⟩) 0 none).result
      = .error (.error invalidStateMsg)
    ∧ (handleOAuthCallback "abc" "wrong" (some "s")
        (fun _ => .ok ⟨"tok", none, 7200, none⟩) 0 none).oauthState = some "s"
    ∧ (handleOAuthCallback "abc" "s"
        ((handleOAuthCallback "abc" "wrong" (some "s")
          (fun _ => .ok ⟨"tok", none, 7200, none⟩) 0 none).oauthState)
        (fun _ => .ok ⟨"tok", none, 7200, none⟩) 0 none).result
      = .ok ⟨"tok", none, 7200, 0, none⟩ :=
  ⟨rfl, rfl, rfl⟩

/-- C1 (amended): `handleOAuthCallback` deletes the stored anti-forgery
token exactly when the candidate matches; on a mismatch the token is left
stored. Consequently, any verification call made while no token is stored
fails with the CSRF error without attempting the exchange — so after a
first matching call every second call fails, while after a first
mismatching call a matching candidate can still succeed. -/
theorem c1_amended (code state : String) (saved : Option String)
    (exchange : String → Except JsError TokensPayload) (now : Int)
    (slot : Option StoredCell) :
    (jsStrEqOpt state saved = true →
      (handleOAuthCallback code state saved exchange now slot).oauthState = none)
    ∧ (jsStrEqOpt state saved = false →
      (handleOAuthCallback code state saved exchange now slot).oauthState = saved)
    ∧ ∀ (c2 s2 : String) (ex2 : String → Except JsError TokensPayload)
        (n2 : Int) (sl2 : Option StoredCell),
        (handleOAuthCallback c2 s2 none ex2 n2 sl2).result
            = .error (.error invalidStateMsg)
        ∧ (handleOAuthCallback c2 s2 none ex2 n2 sl2).exchangeAttempted = false := by
  refine ⟨fun h => ?_, fun h => ?_, fun c2 s2 ex2 n2 sl2 => ?_⟩
  · unfold handleOAuthCallback
    rw [h]
    cases exchange code <;> simp
  · unfold handleOAuthCallback
    rw [h]
    simp
  · unfold handleOAuthCallback
    simp [jsStrEqOpt]

/-- C1 witness: the amended statement at concrete inputs — a matching call
clears the stored token, a mismatching call leaves it in place. -/
theorem c1_witness :
    (handleOAuthCallback "abc" "s" (some "s")
        (fun _ => .ok ⟨"tok", none, 7200, none⟩) 0 none).oauthState = none
    ∧ (handleOAuthCallback "abc" "wrong" (some "s")
        (fun _ => .ok ⟨"tok", none, 7200, none⟩) 0 none).oauthState = some "s" :=
  ⟨(c1_amended "abc" "s" (some "s")
      (fun _ => .ok ⟨"tok", none, 7200, none⟩) 0 none).1 rfl,
   (c1_amended "abc" "wrong" (some "s")
      (fun _ => .ok ⟨"tok", none, 7200, none⟩) 0 none).2.1 rfl⟩

/-- C2: whenever the presented state does not strictly equal the stored
anti-forgery token (including the token being absent), `handleOAuthCallback`
fails with the CSRF error, `exchangeCodeForTokens` is never invoked, and
the credential slot is left unchanged — the failure precedes the exchange. -/
theorem c2_mismatch_no_exchange (code state : String) (saved : Option String)
    (exchange : String → Except JsError TokensPayload) (now : Int)
    (slot : Option StoredCell) (h : jsStrEqOpt state saved = false) :
    (handleOAuthCallback code state saved exchange now slot).result
        = .error (.error invalidStateMsg)
    ∧ (handleOAuthCallback code state saved exchange now slot).exchangeAttempted = false
    ∧ (handleOAuthCallback code state saved exchange now slot).tokenSlot = slot := by
  unfold handleOAuthCallback
  rw [h]
  simp

/-- C2 witness: a concrete mismatching callback makes no exchange and
stores nothing. -/
theorem c2_witness :
    (handleOAuthCallback "abc" "wrong" (some "s")
        (fun _ => .error (.error "exchange must not run")) 0 none).result
      = .error (.error invalidStateMsg)
    ∧ (handleOAuthCallback "abc" "wrong" (some "s")
        (fun _ => .error (.error "exchange must not run")) 0 none).exchangeAttempted = false
    ∧ (handleOAuthCallback "abc" "wrong" (some "s")
        (fun _ => .error (.error "exchange must not run")) 0 none).tokenSlot = none :=
  c2_mismatch_no_exchange "abc" "wrong" (some "s")
    (fun _ => .error (.error "exchange must not run")) 0 none rfl

/-- C3: `isTokenValid` of a credential is true exactly when `now` is
strictly before `timestamp + expires_in*1000 - 300000` — so it is false
whenever `now` has reached that instant, the buffer edge included — and
`isTokenValid` of null is false. -/
theorem c3_token_validity (t : OAuthTokens) (now : Int) :
    (isTokenValid (some t) now = true ↔
      now < t.timestamp + t.expires_in * 1000 - 300000)
    ∧ isTokenValid none now = false := by
  refine ⟨?_, rfl⟩
  simp [isTokenValid, bufferTime]

/-- C4: the classifier is not total — an object passing the
`isApiError` shape test (`code` and `message` properties present) whose
`message` is a number makes `error.message.toLowerCase()` throw a
`TypeError` instead of returning a descriptor. -/
theorem c4_classifier_throws :
    mapApiErrorToUserError (.codeMessageObj (.str "x") (.num 42) none)
      = .error (.typeError "error.message.toLowerCase is not a function") := rfl

/-- C5 counterexample: a `TypeError`-shaped transport failure whose message
does not contain `"fetch"` (such as the `"Load failed"` message) is
classified as the Unknown descriptor, not NetworkError. -/
theorem c5_counterexample :
    mapApiErrorToUserError (.typeErrorInst "Load failed") = .ok defaultUnknownDescriptor
    ∧ defaultUnknownDescriptor.type ≠ .NETWORK_ERROR := by
  refine ⟨?_, by decide⟩
  rfl

/-- C5 (amended): a `TypeError`-shaped failure is classified as NetworkError
with `retryable = true` exactly when its message contains `"fetch"`; the
descriptor carries `canRetry = true`. -/
theorem c5_amended (m : String) (h : jsIncludes m "fetch" = true) :
    mapApiErrorToUserError (.typeErrorInst m) = .ok networkDescriptor
    ∧ networkDescriptor.type = .NETWORK_ERROR
    ∧ networkDescriptor.canRetry = true := by
  refine ⟨?_, rfl, rfl⟩
  simp [mapApiErrorToUserError, h]

/-- C5 witness: the browser fetch failure message `"Failed to fetch"` is
classified as NetworkError. -/
theorem c5_witness :
    mapApiErrorToUserError (.typeErrorInst "Failed to fetch") = .ok networkDescriptor :=
  (c5_amended "Failed to fetch" rfl).1

/-- C6 counterexample: a transport-level failure (fetch reached no
response) is not thrown by `validateMusicId`: `apiRequest` wraps it into an
`ApiError`, which `validateMusicId` returns as the value
`{valid: false, error}`. -/
theorem c6_counterexample :
    validateMusicId "123" "token" .transportFail
      = .ok { valid := false, music_id := "123", title := none, artist := none,
              error := some "Network request failed. Please check your connection." } := rfl

/-- C6 (amended): `validateMusicId` returns every `ApiError`-shaped failure
as the value `{valid: false, error}` — protocol failures (envelope code not
0, which cover the not-found business rejection) and transport failures
alike — and returns `{valid: true, title, artist}` on a code-0 envelope;
only non-`ApiError` exceptions would propagate. -/
theorem c6_amended (mid tok m : String) (c : Int) (d : MusicData) (h : c ≠ 0) :
    validateMusicId mid tok (.response c m d)
      = .ok { valid := false, music_id := mid, title := none, artist := none,
              error := some (jsOrS m "API request failed") }
    ∧ validateMusicId mid tok .transportFail
      = .ok { valid := false, music_id := mid, title := none, artist := none,
              error := some "Network request failed. Please check your connection." }
    ∧ validateMusicId mid tok (.response 0 m d)
      = .ok { valid := true, music_id := mid, title := d.title, artist := d.artist,
              error := none } := by
  refine ⟨?_, rfl, ?_⟩
  · simp [validateMusicId, apiRequest, h]
  · simp [validateMusicId, apiRequest]

/-- C6 witness: the amended statement at a concrete not-found protocol
response (envelope code 40002). -/
theorem c6_witness :
    validateMusicId "123" "token" (.response 40002 "Music ID not found" ⟨none, none⟩)
      = .ok { valid := false, music_id := "123", title := none, artist := none,
              error := some "Music ID not found" } :=
  (c6_amended "123" "token" "Music ID not found" 40002 ⟨none, none⟩ (by decide)).1

/-- C7: whatever the other fields hold, a form with objective
`CONVERSIONS` and music option `none` validates with the `musicOption`
field carrying exactly the objective-specific restriction message (it
overrides any other message for that field), while the identical form with
objective `TRAFFIC` validates with no `musicOption` error. -/
theorem c7_conversions_music_rule (f g : AdFormData)
    (hf1 : f.objective = "CONVERSIONS") (hf2 : f.musicOption = "none")
    (hg1 : g.objective = "TRAFFIC") (hg2 : g.musicOption = "none") :
    (validateAdForm f).map (·.musicOption)
        = .ok (some "Music is required for Conversions campaigns")
    ∧ (validateAdForm g).map (·.musicOption) = .ok none := by
  constructor
  · simp [validateAdForm, musicIdCheck, hf1, hf2, Except.map]
  · simp [validateAdForm, musicIdCheck, hg1, hg2, Except.map]

/-- C7 witness: the rule at two concrete otherwise-valid forms differing
only in the objective. -/
theorem c7_witness :
    (validateAdForm
        (AdFormData.mk "Summer Sale" "CONVERSIONS" "Buy now" "SHOP_NOW" "none" none none)).map
        (·.musicOption)
      = .ok (some "Music is required for Conversions campaigns")
    ∧ (validateAdForm
        (AdFormData.mk "Summer Sale" "TRAFFIC" "Buy now" "SHOP_NOW" "none" none none)).map
        (·.musicOption)
      = .ok none :=
  c7_conversions_music_rule
    (AdFormData.mk "Summer Sale" "CONVERSIONS" "Buy now" "SHOP_NOW" "none" none none)
    (AdFormData.mk "Summer Sale" "TRAFFIC" "Buy now" "SHOP_NOW" "none" none none)
    rfl rfl rfl rfl

/-- C8: the validation engine is not exception-free — a form selecting the
`existing` music option with the optional `musicId` field absent makes
`formData.musicId.trim()` throw a `TypeError` instead of returning a
`FieldErrors` value. -/
theorem c8_validate_throws :
    validateAdForm
        (AdFormData.mk "My Campaign" "TRAFFIC" "Hello" "SHOP_NOW" "existing" none none)
      = .error (.typeError "Cannot read properties of undefined (reading trim)") := rfl

/-- C9 counterexample: storing an already-expired credential and
immediately loading it yields null (the store also clears the slot), not a
value equal to the original — the round trip fails for credentials that
`isTokenValid` rejects at read time. -/
theorem c9_counterexample :
    (getStoredTokens (storeTokens
        { accessToken := "t", refreshToken := none, expires_in := 0,
          timestamp := 0, advertiser_id := none } none) 0).1 = none := rfl

/-- C9 (amended): for every credential that is still valid (per
`isTokenValid`) at the moment of the read, storing it and immediately
loading it via the store yields a value equal in all fields to the
original. -/
theorem c9_amended (t : OAuthTokens) (slot : Option StoredCell) (now : Int)
    (h : isTokenValid (some t) now = true) :
    (getStoredTokens (storeTokens t slot) now).1 = some t := by
  simp [getStoredTokens, storeTokens, h]

/-- C9 witness: the round trip at a concrete fresh credential. -/
theorem c9_witness :
    (getStoredTokens (storeTokens
        { accessToken := "t", refreshToken := some "r", expires_in := 7200,
          timestamp := 0, advertiser_id := some "adv" } none) 0).1
      = some { accessToken := "t", refreshToken := some "r", expires_in := 7200,
               timestamp := 0, advertiser_id := some "adv" } :=
  c9_amended
    { accessToken := "t", refreshToken := some "r", expires_in := 7200,
      timestamp := 0, advertiser_id := some "adv" } none 0 rfl

/-- C10: a durable slot holding a string that is not valid JSON makes
`getStoredTokens` return null (the parse error is caught, not propagated),
the same public result as an empty slot. -/
theorem c10_corrupt_json_null (now : Int) :
    (getStoredTokens (some .notJson) now).1 = none
    ∧ (getStoredTokens (some .notJson) now).1 = (getStoredTokens none now).1 :=
  ⟨rfl, rfl⟩

end TikTokAds
